import Mathlib

/-!
Verification of the state containers and counter hook of the
react-good-patterns repository, shallowly embedded in Lean 4.

The order store (zustand `useOrderStore`), the todo store
(`useTodoStore`) and the counter hook (`useCounter`) are translated as
pure state-transition functions; the two asynchronous actions of the
order store are split into their synchronous entry step and their
completion step, parameterised by the awaited outcome, and the full
action composes them with the simulated (always-succeeding) operations
from the source.
-/

namespace OrderStoreModel

/-- The six workflow labels of `OrderState` in the order store source. -/
inductive OrderState where
  | browsing
  | paymentEntry
  | processingPayment
  | confirmOrder
  | processingOrder
  | orderComplete
deriving DecidableEq, Repr

/-- The fields of the zustand `OrderStore` (its data, without the actions). -/
structure OrderStore where
  state : OrderState
  cart : List String
  paymentDetails : Option String
  error : Option String
deriving DecidableEq, Repr

/-- Initial store: `state: 'browsing', cart: [], paymentDetails: null, error: null`. -/
def initialStore : OrderStore :=
  { state := .browsing, cart := [], paymentDetails := none, error := none }

/-- Simulated `processPayment`: resolves with the given details (never rejects). -/
def processPayment (details : String) : Except String String :=
  Except.ok details

/-- Simulated `submitOrder`: resolves with unit (never rejects). -/
def submitOrder (_cart : List String) (_paymentDetails : Option String) :
    Except String Unit :=
  Except.ok ()

/-- `addToCart: (item) => set((state) => ({ cart: [...state.cart, item] }))`. -/
def addToCart (item : String) (s : OrderStore) : OrderStore :=
  { s with cart := s.cart ++ [item] }

/-- `goToCheckout: () => set({ state: 'paymentEntry' })`. -/
def goToCheckout (s : OrderStore) : OrderStore :=
  { s with state := .paymentEntry }

/-- `goBack`: to `browsing` from `paymentEntry`, to `paymentEntry` from
`confirmOrder`, otherwise no `set` call at all. -/
def goBack (s : OrderStore) : OrderStore :=
  if s.state = .paymentEntry then { s with state := .browsing }
  else if s.state = .confirmOrder then { s with state := .paymentEntry }
  else s

/-- The synchronous entry step of `submitPayment`:
`set({ state: 'processingPayment', error: null })`. -/
def submitPaymentStart (s : OrderStore) : OrderStore :=
  { s with state := .processingPayment, error := none }

/-- The completion step of `submitPayment`, parameterised by the outcome of
the awaited `processPayment(details)` promise: on success
`set({ state: 'confirmOrder', paymentDetails: result })`, on rejection
`set({ state: 'paymentEntry', error: e.message })`. -/
def submitPaymentFinish (outcome : Except String String) (s : OrderStore) :
    OrderStore :=
  match outcome with
  | .ok result => { s with state := .confirmOrder, paymentDetails := some result }
  | .error e => { s with state := .paymentEntry, error := some e }

/-- The whole `submitPayment(details)` action, run to completion with the
simulated `processPayment`. -/
def submitPayment (details : String) (s : OrderStore) : OrderStore :=
  submitPaymentFinish (processPayment details) (submitPaymentStart s)

/-- The synchronous entry step of `placeOrder`:
`set({ state: 'processingOrder', error: null })` (after reading `cart` and
`paymentDetails` via `get()`). -/
def placeOrderStart (s : OrderStore) : OrderStore :=
  { s with state := .processingOrder, error := none }

/-- The completion step of `placeOrder`, parameterised by the outcome of the
awaited `submitOrder(cart, paymentDetails)` promise: on success
`set({ state: 'orderComplete' })`, on rejection
`set({ state: 'confirmOrder', error: e.message })`. -/
def placeOrderFinish (outcome : Except String Unit) (s : OrderStore) :
    OrderStore :=
  match outcome with
  | .ok _ => { s with state := .orderComplete }
  | .error e => { s with state := .confirmOrder, error := some e }

/-- The whole `placeOrder()` action, run to completion with the simulated
`submitOrder` applied to the `cart` and `paymentDetails` read on entry. -/
def placeOrder (s : OrderStore) : OrderStore :=
  placeOrderFinish (submitOrder s.cart s.paymentDetails) (placeOrderStart s)

/-- The five exposed operations of the order container. -/
inductive Op where
  | addToCart (item : String)
  | goToCheckout
  | goBack
  | submitPayment (details : String)
  | placeOrder
deriving Repr

/-- Run one exposed operation to completion on the store. -/
def applyOp : Op → OrderStore → OrderStore
  | .addToCart item, s => addToCart item s
  | .goToCheckout, s => goToCheckout s
  | .goBack, s => goBack s
  | .submitPayment details, s => submitPayment details s
  | .placeOrder, s => placeOrder s

/-- Run a sequence of exposed operations from a store, first to last. -/
def runOps : List Op → OrderStore → OrderStore
  | [], s => s
  | op :: ops, s => runOps ops (applyOp op s)

/-- The stores observable during execution: the initial store, the result of
any completed exposed operation on a reachable store, and the intermediate
store of either asynchronous action taken on a reachable store. -/
inductive Reachable : OrderStore → Prop where
  | init : Reachable initialStore
  | step (op : Op) {s : OrderStore} : Reachable s → Reachable (applyOp op s)
  | midPayment {s : OrderStore} : Reachable s → Reachable (submitPaymentStart s)
  | midOrder {s : OrderStore} : Reachable s → Reachable (placeOrderStart s)

end OrderStoreModel

namespace TodoStoreModel

/-- A todo item: `{ text: string }`. -/
structure Todo where
  text : String
deriving DecidableEq, Repr

/-- The fields of the zustand `TodoStore` (its data, without the actions). -/
structure TodoStore where
  todos : List Todo
  input : String
deriving DecidableEq, Repr

/-- Initial store: `todos: [], input: ''`. -/
def initialTodoStore : TodoStore :=
  { todos := [], input := "" }

/-- `setInput: (val) => set({ input: val })`. -/
def setInput (val : String) (s : TodoStore) : TodoStore :=
  { s with input := val }

/-- `addTodo: () => set((state) => ({ todos: [...state.todos, { text: state.input }], input: '' }))`. -/
def addTodo (s : TodoStore) : TodoStore :=
  { s with todos := s.todos ++ [{ text := s.input }], input := "" }

end TodoStoreModel

namespace CounterModel

/-- The state of one activation of the `useCounter` hook: the `count` from
`useState(0)`, and whether the interval created by `setInterval` is still
installed (`clearIntervalled` by the effect cleanup or not). -/
structure CounterState where
  count : Nat
  active : Bool
deriving DecidableEq, Repr

/-- Hook activation: `useState<number>(0)` and the effect installs the interval. -/
def initCounter : CounterState :=
  { count := 0, active := true }

/-- One firing opportunity of the interval: if it is still installed the
callback runs `setCount((c) => c + 1)`; a cleared interval never fires. -/
def tick (s : CounterState) : CounterState :=
  if s.active then { s with count := s.count + 1 } else s

/-- The effect cleanup: `clearInterval(id)`. -/
def cleanup (s : CounterState) : CounterState :=
  { s with active := false }

end CounterModel

namespace OrderStoreModel

/-- Running only `addToCart` operations appends exactly the arguments, in
order, to the cart and changes nothing else. -/
lemma runOps_map_addToCart (items : List String) (s : OrderStore) :
    runOps (items.map Op.addToCart) s = { s with cart := s.cart ++ items } := by
  induction items generalizing s with
  | nil => simp [runOps]
  | cons a t ih =>
      simp [runOps, applyOp, addToCart, ih]

/-- C2: `goToCheckout` sets the state to `paymentEntry` unconditionally,
from every starting state, touching no other field. -/
theorem goToCheckout_unconditional (s : OrderStore) :
    (goToCheckout s).state = .paymentEntry ∧
    (goToCheckout s).cart = s.cart ∧
    (goToCheckout s).paymentDetails = s.paymentDetails ∧
    (goToCheckout s).error = s.error :=
  ⟨rfl, rfl, rfl, rfl⟩

/-- C3: from the initial store, any sequence of `addToCart(i1) … addToCart(in)`
calls leaves the cart equal to `[i1, …, in]` and the state still `browsing`. -/
theorem addToCart_sequence_from_initial (items : List String) :
    (runOps (items.map Op.addToCart) initialStore).cart = items ∧
    (runOps (items.map Op.addToCart) initialStore).state = .browsing := by
  rw [runOps_map_addToCart]
  simp [initialStore]

/-- C4: `submitPayment(d)` invoked at `paymentEntry` first moves the store to
`processingPayment`, and its successful completion leaves state
`confirmOrder`, `paymentDetails = d` and `error = null`. -/
theorem submitPayment_success (s : OrderStore) (d : String)
    (h : s.state = .paymentEntry) :
    (submitPaymentStart s).state = .processingPayment ∧
    (submitPayment d s).state = .confirmOrder ∧
    (submitPayment d s).paymentDetails = some d ∧
    (submitPayment d s).error = none :=
  ⟨rfl, rfl, rfl, rfl⟩

/-- Witness for C4 at a concrete store in state `paymentEntry`. -/
theorem submitPayment_success_witness :
    ({ state := .paymentEntry, cart := ["apple"], paymentDetails := none,
       error := none } : OrderStore).state = .paymentEntry ∧
    (submitPayment "card-42"
      { state := .paymentEntry, cart := ["apple"], paymentDetails := none,
        error := none }).state = .confirmOrder :=
  ⟨rfl, (submitPayment_success
    { state := .paymentEntry, cart := ["apple"], paymentDetails := none,
      error := none } "card-42" rfl).2.1⟩

/-- C5: both asynchronous actions clear `error` on entry; on a failed awaited
operation, `submitPayment` rolls back to `paymentEntry` and `placeOrder` to
`confirmOrder`, each storing the failure message in `error`. -/
theorem async_failure_semantics (s : OrderStore) (e : String) :
    ((submitPaymentStart s).error = none ∧
     (submitPaymentFinish (Except.error e) (submitPaymentStart s)).state =
       .paymentEntry ∧
     (submitPaymentFinish (Except.error e) (submitPaymentStart s)).error =
       some e) ∧
    ((placeOrderStart s).error = none ∧
     (placeOrderFinish (Except.error e) (placeOrderStart s)).state =
       .confirmOrder ∧
     (placeOrderFinish (Except.error e) (placeOrderStart s)).error = some e) :=
  ⟨⟨rfl, rfl, rfl⟩, ⟨rfl, rfl, rfl⟩⟩

/-- C6: the simulated operations always succeed, so every reachable store of
the order container has `error = null`. -/
theorem error_always_none :
    (∀ d, processPayment d = Except.ok d) ∧
    (∀ c p, submitOrder c p = Except.ok ()) ∧
    (∀ s, Reachable s → s.error = none) := by
  refine ⟨fun d => rfl, fun c p => rfl, ?_⟩
  intro s h
  induction h with
  | init => rfl
  | step op h ih =>
      cases op with
      | addToCart item => simpa [applyOp, addToCart] using ih
      | goToCheckout => simpa [applyOp, goToCheckout] using ih
      | goBack =>
          simp only [applyOp, goBack]
          split_ifs <;> simpa using ih
      | submitPayment details => rfl
      | placeOrder => rfl
  | midPayment h ih => rfl
  | midOrder h ih => rfl

/-- Witness for C6: the initial store is reachable and has no error. -/
theorem error_always_none_witness :
    Reachable initialStore ∧ initialStore.error = none :=
  ⟨Reachable.init, error_always_none.2.2 initialStore Reachable.init⟩

/-- C7: `goBack` maps `paymentEntry` to `browsing`, `confirmOrder` to
`paymentEntry`, and leaves every other state unchanged. -/
theorem goBack_transitions (s : OrderStore) :
    (goBack s).state =
      (match s.state with
       | .paymentEntry => .browsing
       | .confirmOrder => .paymentEntry
       | st => st) := by
  cases h : s.state <;> simp [goBack, h]

/-- C8: the cart is append-only: every exposed operation extends the cart on
the right; `addToCart` appends exactly its argument at the end, and the four
other operations leave the cart unchanged. -/
theorem cart_append_only (s : OrderStore) :
    (∀ op, ∃ t, (applyOp op s).cart = s.cart ++ t) ∧
    (∀ i, (applyOp (Op.addToCart i) s).cart = s.cart ++ [i]) ∧
    (applyOp Op.goToCheckout s).cart = s.cart ∧
    (applyOp Op.goBack s).cart = s.cart ∧
    (∀ d, (applyOp (Op.submitPayment d) s).cart = s.cart) ∧
    (applyOp Op.placeOrder s).cart = s.cart := by
  have hgoBack : (goBack s).cart = s.cart := by
    simp only [goBack]; split_ifs <;> rfl
  refine ⟨?_, fun i => rfl, rfl, hgoBack, fun d => rfl, rfl⟩
  intro op
  cases op with
  | addToCart i => exact ⟨[i], rfl⟩
  | goToCheckout => exact ⟨[], by simp [applyOp, goToCheckout]⟩
  | goBack => exact ⟨[], by simpa using hgoBack⟩
  | submitPayment d => exact ⟨[], by
      simp [applyOp, submitPayment, submitPaymentFinish, processPayment,
        submitPaymentStart]⟩
  | placeOrder => exact ⟨[], by
      simp [applyOp, placeOrder, placeOrderFinish, submitOrder,
        placeOrderStart]⟩

/-- Counterexample to C1 as stated: from a concrete store in state
`orderComplete`, the exposed operation `goToCheckout` leaves a state other
than `orderComplete`. -/
theorem orderComplete_not_terminal :
    (applyOp Op.goToCheckout
      { state := .orderComplete, cart := ["apple"],
        paymentDetails := some "card-42", error := none }).state ≠
      OrderState.orderComplete := by
  decide

/-- C1 amended: at `orderComplete`, the operations `addToCart`, `goBack` and
`placeOrder` leave the state at `orderComplete`, but the unguarded
`goToCheckout` and `submitPayment` transition out, to `paymentEntry` and (on
success) `confirmOrder` respectively. -/
theorem orderComplete_partially_terminal (s : OrderStore) (i d : String)
    (h : s.state = .orderComplete) :
    (applyOp (Op.addToCart i) s).state = .orderComplete ∧
    (applyOp Op.goBack s).state = .orderComplete ∧
    (applyOp Op.placeOrder s).state = .orderComplete ∧
    (applyOp Op.goToCheckout s).state = .paymentEntry ∧
    (applyOp (Op.submitPayment d) s).state = .confirmOrder := by
  refine ⟨h, ?_, rfl, rfl, rfl⟩
  simp [applyOp, goBack, h]

/-- Witness for the amended C1 at a concrete store in state `orderComplete`. -/
theorem orderComplete_partially_terminal_witness :
    ({ state := .orderComplete, cart := [], paymentDetails := none,
       error := none } : OrderStore).state = .orderComplete ∧
    (applyOp Op.goToCheckout
      { state := .orderComplete, cart := [], paymentDetails := none,
        error := none }).state = .paymentEntry :=
  ⟨rfl, (orderComplete_partially_terminal
    { state := .orderComplete, cart := [], paymentDetails := none,
      error := none } "apple" "card-42" rfl).2.2.2.1⟩

end OrderStoreModel

namespace TodoStoreModel

/-- C9: `addTodo` appends exactly one todo built from the current buffer at
the end of the list, keeps the earlier todos in order, and resets the buffer;
`setInput(v)` replaces the buffer and keeps the todos. -/
theorem todoStore_operations (s : TodoStore) (v : String) :
    (addTodo s).todos = s.todos ++ [{ text := s.input }] ∧
    (addTodo s).input = "" ∧
    (setInput v s).input = v ∧
    (setInput v s).todos = s.todos :=
  ⟨rfl, rfl, rfl, rfl⟩

end TodoStoreModel

namespace CounterModel

/-- Ticking does not change whether the interval is installed. -/
lemma tick_active (s : CounterState) : (tick s).active = s.active := by
  simp only [tick]; split_ifs <;> rfl

/-- An uninterrupted activation counts its ticks from zero. -/
lemma tick_iterate_init (n : Nat) :
    tick^[n] initCounter = { count := n, active := true } := by
  induction n with
  | zero => rfl
  | succ k ih => rw [Function.iterate_succ_apply', ih]; rfl

/-- A cleared interval never fires. -/
lemma tick_cleanup (s : CounterState) : tick (cleanup s) = cleanup s := by
  simp [tick, cleanup]

/-- C10: the counter starts at zero, each tick of an installed interval adds
exactly one, the count never decreases, after `n` uninterrupted ticks it
equals `n` (so 5 after 5 periods), and after cleanup no tick changes it. -/
theorem useCounter_behavior :
    initCounter.count = 0 ∧
    (∀ s, s.active = true → (tick s).count = s.count + 1) ∧
    (∀ s, s.count ≤ (tick s).count) ∧
    (∀ n, (tick^[n] initCounter).count = n) ∧
    (tick^[5] initCounter).count = 5 ∧
    (∀ s n, (tick^[n] (cleanup s)).count = s.count) := by
  refine ⟨rfl, ?_, ?_, ?_, ?_, ?_⟩
  · intro s h; simp [tick, h]
  · intro s
    simp only [tick]; split_ifs <;> simp
  · intro n; rw [tick_iterate_init]
  · rw [tick_iterate_init]
  · intro s n
    have h : tick^[n] (cleanup s) = cleanup s := by
      induction n with
      | zero => rfl
      | succ k ih => rw [Function.iterate_succ_apply', ih, tick_cleanup]
    rw [h]; rfl

/-- Witness for C10 at the freshly activated counter. -/
theorem useCounter_behavior_witness :
    initCounter.active = true ∧ (tick initCounter).count = initCounter.count + 1 :=
  ⟨rfl, useCounter_behavior.2.1 initCounter rfl⟩

end CounterModel
